import Mathlib

/-!
Shallow embedding of the LeafTasks frontend API client
(`frontend/src/lib/api.ts`) and the screen handlers that drive it
(`Login.tsx`, `Register.tsx`, the `AdminUsers` screen), together with
spec-modelled fragments of the backend auth core that is not part of
the sources in this bundle (verification-token issue/consume,
server-side sessions, bearer issuance, and the login endpoint outcome).

Modelling conventions for the JavaScript code:
  - `localStorage` is an explicit `Storage` record threaded through the
    functions that read or write it.
  - JWT base64url decoding plus JSON parsing (`decodeJwt` in api.ts) is
    modelled by representing a token by its decode outcome: either the
    parse fails (`Token.malformed`, covering malformed base64 or JSON)
    or it yields a payload object with optional `sub`, `exp` and `adm`
    fields (a `none` field is an absent / `undefined` property).
  - JavaScript truthiness is made explicit at each use site, restricted
    to the values the code actually tests: `undefined` is falsy, the
    number 0 is falsy, the empty string is falsy.
  - Wall-clock time (`Math.floor(Date.now() / 1000)`) is an explicit
    `nowSec` argument.
-/

/-- Decoded JWT payload object as read by the client: optional subject
email, optional numeric `exp` (seconds since epoch) and optional
boolean `adm` claim. -/
structure JwtPayload where
  sub : Option String
  exp : Option Int
  adm : Option Bool
deriving DecidableEq

/-- A bearer token as seen through `decodeJwt`: api.ts splits the string
on ".", base64url-decodes the middle part and runs `JSON.parse`,
yielding `null` on any failure. A token is modelled by that decode
outcome. -/
inductive Token where
  | malformed
  | payload (p : JwtPayload)
deriving DecidableEq

/-- decodeJwt (api.ts lines 68-76): returns the parsed payload object,
or `null` when splitting, `atob` or `JSON.parse` fails. -/
def decodeJwt : Token → Option JwtPayload
  | Token.malformed => none
  | Token.payload p => some p

/-- isTokenExpired (api.ts lines 78-84):
`if (!payload?.exp) return false; return payload.exp <= nowSec`.
The guard `!payload?.exp` is true when the payload is null, the `exp`
field is absent, or `exp` is the falsy number 0. -/
def isTokenExpired (tok : Token) (nowSec : Int) : Bool :=
  match decodeJwt tok with
  | none => false
  | some payload =>
    match payload.exp with
    | none => false
    | some e => if e = 0 then false else decide (e ≤ nowSec)

/-- isLoggedIn (api.ts lines 220-223): `!!t && !isTokenExpired(t)` for
the stored token `t`; `none` models a missing key (the falsy values of
`getToken()`). -/
def isLoggedIn (stored : Option Token) (nowSec : Int) : Bool :=
  match stored with
  | none => false
  | some t => !(isTokenExpired t nowSec)

/-- The two localStorage keys the client manages (api.ts lines 44-45). -/
structure Storage where
  access_token : Option Token
  current_email : Option String
deriving DecidableEq

/-- setToken (api.ts lines 51-53). -/
def setToken (st : Storage) (t : Token) : Storage :=
  { st with access_token := some t }

/-- setCurrentEmail (api.ts lines 55-57). -/
def setCurrentEmail (st : Storage) (e : String) : Storage :=
  { st with current_email := some e }

/-- clearSession (api.ts lines 63-66): removes both keys. -/
def clearSession (_st : Storage) : Storage :=
  { access_token := none, current_email := none }

/-- logout (api.ts lines 139-141): calls `clearSession()` and nothing
else; in particular it performs no network request. -/
def logout (st : Storage) : Storage :=
  clearSession st

/-- JavaScript `Boolean(x)` applied to an optional boolean claim value
(`undefined` is falsy). -/
def jsBoolean (o : Option Bool) : Bool :=
  o.getD false

/-- Success body of POST /auth/login (api.ts `TokenOut`). -/
structure TokenOut where
  access_token : Token
  token_type : String
  expires_in : Int
deriving DecidableEq

/-- The value `login` resolves with (api.ts line 136). -/
structure LoginResult where
  token : Token
  adm : Bool
deriving DecidableEq

/-- login (api.ts lines 122-137), from the point where a success
response body has arrived: stores the returned token and the submitted
email, decodes the token and returns
`{ token: data.access_token, adm: Boolean(payload?.adm) }`. -/
def login (st : Storage) (email : String) (data : TokenOut) :
    Storage × LoginResult :=
  let st1 := setToken st data.access_token
  let st2 := setCurrentEmail st1 email
  let payload := decodeJwt data.access_token
  (st2, { token := data.access_token, adm := jsBoolean (payload.bind JwtPayload.adm) })

/-- The `detail` field of a parsed JSON error body, when present as a
string. -/
structure JsonBody where
  detail : Option String
deriving DecidableEq

/-- The parts of a fetch `Response` that `handleJsonResponse` inspects:
`ok`, `status`, `statusText`, whether the Content-Type header includes
application/json, and the parsed body in that case. -/
structure HttpResponse where
  ok : Bool
  status : Nat
  statusText : String
  isJson : Bool
  body : JsonBody
deriving DecidableEq

/-- The `Error` object thrown by `handleJsonResponse` (its `status` and
`message` fields). -/
structure ApiError where
  status : Nat
  message : String
deriving DecidableEq

/-- JavaScript `a || b` when `a` is an optional string: absent and empty
strings are falsy. -/
def jsOrOptStr (a : Option String) (b : String) : String :=
  match a with
  | none => b
  | some s => if s = "" then b else s

/-- JavaScript `a || b` on strings: the empty string is falsy. -/
def jsOrStr (a b : String) : String :=
  if a = "" then b else a

/-- handleJsonResponse (api.ts lines 93-105): parses the body exactly
when the Content-Type includes application/json, and on a non-ok
response throws an error with `status = res.status` and
`message = data?.detail || res.statusText || "Request failed"`. -/
def handleJsonResponse (res : HttpResponse) :
    Except ApiError (Option JsonBody) :=
  let data : Option JsonBody := if res.isJson then some res.body else none
  if !res.ok then
    Except.error
      { status := res.status,
        message := jsOrOptStr (data.bind JsonBody.detail)
                     (jsOrStr res.statusText "Request failed") }
  else
    Except.ok data

/-- The observable outcomes of `Login.handleSubmit` (Login.tsx lines
52-78): which message is shown and which callback fires. -/
inductive LoginAction where
  | missingFields (msg : String)
  | success (email : String) (role : String)
  | requireVerification (msg : String) (email : String)
  | rateLimited (msg : String)
  | showError (msg : String)
deriving DecidableEq

/-- Login.handleSubmit (Login.tsx lines 52-78) as a function of the form
fields and of the outcome of `apiLogin`: empty fields short-circuit
before any request; on success `onLogin(email, adm ? "admin" : "user")`;
on error, status 403 sets "Email not verified" and calls
`onRequireVerification(email)`, status 429 shows the rate-limit
message, and anything else shows `err.message || "Invalid
credentials"`. -/
def handleLoginSubmit (email password : String)
    (outcome : Except ApiError LoginResult) : LoginAction :=
  if email = "" ∨ password = "" then
    LoginAction.missingFields "Please enter both email and password"
  else
    match outcome with
    | Except.ok r => LoginAction.success email (if r.adm then "admin" else "user")
    | Except.error err =>
      if err.status = 403 then
        LoginAction.requireVerification "Email not verified" email
      else if err.status = 429 then
        LoginAction.rateLimited "Too many attempts, please try later"
      else
        LoginAction.showError (jsOrStr err.message "Invalid credentials")

/-- Outcome of the registration form handler: either an error message is
shown, or `apiRegister(email, password)` is called. -/
inductive RegisterAction where
  | showError (msg : String)
  | sendRegister (email : String) (password : String)
deriving DecidableEq

/-- Register.handleSubmit validation (Register.tsx lines 48-75):
`!email || !email.includes("@")` rejects first, then
`password.length < 8`; only past both checks does the handler call
`apiRegister` (`includes("@")` of a single character is modelled as
character containment). -/
def registerHandleSubmit (email password : String) : RegisterAction :=
  if email = "" ∨ email.contains '@' = false then
    RegisterAction.showError "Please enter a valid email address"
  else if password.length < 8 then
    RegisterAction.showError "Password must be at least 8 characters"
  else
    RegisterAction.sendRegister email password

/-- The `changes` argument of `adminUpdateUser`: a field is `some b`
exactly when the caller passed that flag as a boolean. -/
structure UpdateChanges where
  make_admin : Option Bool
  verify_email : Option Bool
  deactivate : Option Bool
deriving DecidableEq

/-- JavaScript `String(b)` for a boolean. -/
def boolParam (b : Bool) : String :=
  if b then "true" else "false"

/-- adminUpdateUser (api.ts lines 187-201): appends a query parameter
for a flag exactly when `typeof changes.flag === "boolean"`, in the
order make_admin, verify_email, deactivate. -/
def adminUpdateUserParams (changes : UpdateChanges) : List (String × String) :=
  (match changes.make_admin with
   | some b => [("make_admin", boolParam b)]
   | none => []) ++
  (match changes.verify_email with
   | some b => [("verify_email", boolParam b)]
   | none => []) ++
  (match changes.deactivate with
   | some b => [("deactivate", boolParam b)]
   | none => [])

/-- The three user flags shown in the AdminUsers edit drawer. -/
structure UserFlags where
  is_admin : Bool
  email_verified : Bool
  is_active : Bool
deriving DecidableEq

/-- AdminUsers.handleUpdateUser (screens bundle, lines 427-454): builds
`changes` holding only the flags whose form value differs from the
selected user's current record, with
`changes.deactivate = !formData.is_active` when the active flag
differs. -/
def handleUpdateUserChanges (form current : UserFlags) : UpdateChanges :=
  { make_admin :=
      if form.is_admin ≠ current.is_admin then some form.is_admin else none,
    verify_email :=
      if form.email_verified ≠ current.email_verified then some form.email_verified else none,
    deactivate :=
      if form.is_active ≠ current.is_active then some (!form.is_active) else none }

/-- A persisted user record of the backend credential store (the backend
sources are not part of this bundle; fields follow the spec data model,
with the stored password standing in for its hash and credential
verification for `verify`). -/
structure BackendUser where
  email : String
  password : String
  email_verified : Bool
  is_active : Bool
  is_admin : Bool
deriving DecidableEq

/-- Modelled from the spec: the POST /auth/login endpoint is backend
code absent from this bundle. Per the spec, bad credentials yield 400,
a correct-credential attempt on an unverified account yields the
distinct 403 Unverified signal, a deactivated account cannot
authenticate, and only a verified active account gets 200. -/
def backendLoginStatus (u : BackendUser) (email password : String) : Nat :=
  if email ≠ u.email ∨ password ≠ u.password then 400
  else if u.email_verified = false then 403
  else if u.is_active = false then 400
  else 200

/-- Modelled from the spec: bearer issuance is backend code absent from
this bundle; per the spec the signed payload embeds the subject email,
the admin flag, and `exp = now + configured lifetime`. -/
def issueBearer (u : BackendUser) (nowSec lifetimeSec : Int) : Token :=
  Token.payload
    { sub := some u.email, exp := some (nowSec + lifetimeSec), adm := some u.is_admin }

/-- A user record as seen by the verification-token service. -/
structure VerifUser where
  id : Nat
  email_verified : Bool
deriving DecidableEq

/-- Backend state visible to the verification-token service: the issued
(token, owner id) pairs and the user records. -/
structure TokenStore where
  tokens : List (String × Nat)
  users : List VerifUser
deriving DecidableEq

/-- Failure of a consumption attempt. -/
inductive ConsumeError where
  | NotFound
deriving DecidableEq

/-- Lookup of a verification token in the issued-token table. -/
def lookupToken (tok : String) : List (String × Nat) → Option Nat
  | [] => none
  | (t, uid) :: rest => if t = tok then some uid else lookupToken tok rest

/-- Deletion of a verification token from the issued-token table. -/
def removeToken (tok : String) : List (String × Nat) → List (String × Nat)
  | [] => []
  | (t, uid) :: rest =>
    if t = tok then removeToken tok rest else (t, uid) :: removeToken tok rest

/-- Modelled from the spec: `consume(token)` of the verification-token
service is backend code absent from this bundle. It looks the token up;
if absent it fails NotFound; otherwise it atomically marks the owning
user's email_verified true and deletes the token (single-use). -/
def consume (st : TokenStore) (tok : String) :
    Except ConsumeError (Nat × TokenStore) :=
  match lookupToken tok st.tokens with
  | none => Except.error ConsumeError.NotFound
  | some uid =>
    Except.ok (uid,
      { tokens := removeToken tok st.tokens,
        users := st.users.map fun u =>
          if u.id = uid then { u with email_verified := true } else u })

/-- One consumption attempt, keeping the store unchanged on failure. -/
def consumeStep (st : TokenStore) (tok : String) : TokenStore :=
  match consume st tok with
  | Except.ok (_, st2) => st2
  | Except.error _ => st

/-- A sequence of consumption attempts; atomicity of `consume` means any
concurrent schedule of attempts is equivalent to some such sequence. -/
def runConsumes : TokenStore → List String → TokenStore
  | st, [] => st
  | st, t :: rest => runConsumes (consumeStep st t) rest

/-- A server-side session record referenced by an opaque cookie value. -/
structure SessionRec where
  session_id : String
  user_id : Nat
deriving DecidableEq

/-- Modelled from the spec: server-side logout is backend code absent
from this bundle; it invalidates the session record, dropping every
record carrying the logged-out session id. -/
def serverLogout (sessions : List SessionRec) (sid : String) : List SessionRec :=
  sessions.filter fun s => s.session_id != sid

/-- Modelled from the spec: `issue(user_id)` of the verification-token
service is backend code absent from this bundle; the repository README
(App Navigation Summary) records its observable behavior: "the token is
always (a1) for easy testing", i.e. every user receives the constant
token string a1. -/
def issueToken (_userId : Nat) : String :=
  "a1"

theorem lookupToken_removeToken_self (tok : String) (l : List (String × Nat)) :
    lookupToken tok (removeToken tok l) = none := by
  induction l with
  | nil => rfl
  | cons hd tl ih =>
    obtain ⟨t, uid⟩ := hd
    by_cases h : t = tok
    · simp [removeToken, h, ih]
    · simp [removeToken, lookupToken, h, ih]

theorem lookupToken_removeToken_of_none (tok t2 : String)
    (l : List (String × Nat)) (h : lookupToken tok l = none) :
    lookupToken tok (removeToken t2 l) = none := by
  induction l with
  | nil => rfl
  | cons hd tl ih =>
    obtain ⟨t, uid⟩ := hd
    by_cases ht : t = tok
    · simp [lookupToken, ht] at h
    · simp only [lookupToken, if_neg ht] at h
      by_cases ht2 : t = t2
      · simp [removeToken, ht2, ih h]
      · simp [removeToken, lookupToken, ht2, ht, ih h]

theorem consumeStep_tokens_absent (st : TokenStore) (tok t2 : String)
    (h : lookupToken tok st.tokens = none) :
    lookupToken tok (consumeStep st t2).tokens = none := by
  simp only [consumeStep, consume]
  cases hl : lookupToken t2 st.tokens with
  | none => simpa using h
  | some uid => simpa using lookupToken_removeToken_of_none tok t2 st.tokens h

theorem runConsumes_tokens_absent (rest : List String) (st : TokenStore)
    (tok : String) (h : lookupToken tok st.tokens = none) :
    lookupToken tok (runConsumes st rest).tokens = none := by
  induction rest generalizing st with
  | nil => simpa [runConsumes] using h
  | cons t rest ih =>
    simp only [runConsumes]
    exact ih (consumeStep st t) (consumeStep_tokens_absent st tok t h)

/-- C2: once `consume` has succeeded on a verification token (marking
the owner verified and deleting the token), every subsequent `consume`
of that same token — after any further sequence of consumption attempts
— fails with NotFound; no token can verify a user twice. -/
theorem c2_consume_single_use (st : TokenStore) (tok : String) (uid : Nat)
    (st2 : TokenStore) (rest : List String)
    (h : consume st tok = Except.ok (uid, st2)) :
    consume (runConsumes st2 rest) tok = Except.error ConsumeError.NotFound := by
  have habs : lookupToken tok st2.tokens = none := by
    unfold consume at h
    cases hl : lookupToken tok st.tokens with
    | none => rw [hl] at h; cases h
    | some u =>
      rw [hl] at h
      simp only [Except.ok.injEq, Prod.mk.injEq] at h
      obtain ⟨-, h2⟩ := h
      rw [← h2]
      exact lookupToken_removeToken_self tok st.tokens
  have hrun := runConsumes_tokens_absent rest st2 tok habs
  simp only [consume, hrun]

/-- C2 witness: in a store holding token t1 for user 1, consuming t1
succeeds once, and the immediate retry fails with NotFound. -/
theorem c2_consume_single_use_witness :
    consume (runConsumes
      { tokens := [], users := [{ id := 1, email_verified := true }] } [])
      "t1" = Except.error ConsumeError.NotFound :=
  c2_consume_single_use
    { tokens := [("t1", 1)], users := [{ id := 1, email_verified := false }] }
    "t1" 1
    { tokens := [], users := [{ id := 1, email_verified := true }] }
    [] rfl

/-- C1 counterexample: a token whose decoded payload carries the numeric
exp claim 0 (so exp is at or before any current instant) is NOT
rejected: `!payload?.exp` treats the falsy number 0 as a missing claim,
so isTokenExpired returns false and isLoggedIn returns true with it
stored. -/
theorem c1_counterexample :
    (0 : Int) ≤ 100 ∧
    isTokenExpired (Token.payload { sub := none, exp := some 0, adm := none }) 100 = false ∧
    isLoggedIn (some (Token.payload { sub := none, exp := some 0, adm := none })) 100 = true :=
  ⟨by decide, rfl, rfl⟩

/-- C1 (amended): for every bearer token whose decoded payload carries a
nonzero numeric exp claim with exp at or before the current wall-clock
seconds, isTokenExpired returns true, and isLoggedIn returns false when
that token is the stored credential. -/
theorem c1_expired_token_rejected (p : JwtPayload) (e nowSec : Int)
    (hexp : p.exp = some e) (hne : e ≠ 0) (hle : e ≤ nowSec) :
    isTokenExpired (Token.payload p) nowSec = true ∧
    isLoggedIn (some (Token.payload p)) nowSec = false := by
  have hexpired : isTokenExpired (Token.payload p) nowSec = true := by
    simp [isTokenExpired, decodeJwt, hexp, hne, hle]
  exact ⟨hexpired, by simp [isLoggedIn, hexpired]⟩

/-- C1 witness: a token with exp 5 at current time 10 is expired and not
logged in. -/
theorem c1_expired_token_rejected_witness :
    isTokenExpired (Token.payload { sub := none, exp := some 5, adm := none }) 10 = true ∧
    isLoggedIn (some (Token.payload { sub := none, exp := some 5, adm := none })) 10 = false :=
  c1_expired_token_rejected { sub := none, exp := some 5, adm := none } 5 10
    rfl (by decide) (by decide)

/-- C10: for a stored token that decodeJwt cannot parse, or whose
decoded payload lacks an exp field, isTokenExpired returns false at
every instant, and isLoggedIn returns true whenever such a token is the
stored credential — the client treats it as valid forever. -/
theorem c10_undecodable_exp_never_expires (p : JwtPayload) (nowSec : Int)
    (h : p.exp = none) :
    isTokenExpired Token.malformed nowSec = false ∧
    isTokenExpired (Token.payload p) nowSec = false ∧
    isLoggedIn (some Token.malformed) nowSec = true ∧
    isLoggedIn (some (Token.payload p)) nowSec = true := by
  simp [isTokenExpired, isLoggedIn, decodeJwt, h]

/-- C10 witness: a payload without exp at an arbitrary instant. -/
theorem c10_undecodable_exp_never_expires_witness :
    isTokenExpired Token.malformed 123456 = false ∧
    isTokenExpired (Token.payload { sub := some "a@x.com", exp := none, adm := some false }) 123456 = false ∧
    isLoggedIn (some Token.malformed) 123456 = true ∧
    isLoggedIn (some (Token.payload { sub := some "a@x.com", exp := none, adm := some false })) 123456 = true :=
  c10_undecodable_exp_never_expires
    { sub := some "a@x.com", exp := none, adm := some false } 123456 rfl

/-- C3: a login attempt by a registered but unverified account (with its
registered credentials) fails with the distinct 403 Forbidden signal,
not generic bad-credentials 400; and the client reacts to status 403 by
showing "Email not verified" and invoking onRequireVerification with
the attempted email, rather than treating it as invalid credentials. -/
theorem c3_unverified_login_forbidden (u : BackendUser) (e p msg : String)
    (hv : u.email_verified = false) (he : e ≠ "") (hp : p ≠ "") :
    backendLoginStatus u u.email u.password = 403 ∧
    backendLoginStatus u u.email u.password ≠ 400 ∧
    handleLoginSubmit e p (Except.error { status := 403, message := msg }) =
      LoginAction.requireVerification "Email not verified" e := by
  have hs : backendLoginStatus u u.email u.password = 403 := by
    simp [backendLoginStatus, hv]
  refine ⟨hs, by simp [hs], ?_⟩
  simp [handleLoginSubmit, he, hp]

/-- C3 witness: an unverified account at its own credentials, and the
client handler on a 403 error. -/
theorem c3_unverified_login_forbidden_witness :
    backendLoginStatus
      { email := "a@x.com", password := "password123",
        email_verified := false, is_active := true, is_admin := false }
      "a@x.com" "password123" = 403 ∧
    backendLoginStatus
      { email := "a@x.com", password := "password123",
        email_verified := false, is_active := true, is_admin := false }
      "a@x.com" "password123" ≠ 400 ∧
    handleLoginSubmit "a@x.com" "password123"
      (Except.error { status := 403, message := "Email not verified" }) =
      LoginAction.requireVerification "Email not verified" "a@x.com" :=
  c3_unverified_login_forbidden
    { email := "a@x.com", password := "password123",
      email_verified := false, is_active := true, is_admin := false }
    "a@x.com" "password123" "Email not verified"
    rfl (by decide) (by decide)

/-- C4: on a successful login response the client stores the returned
access_token and the submitted email; the returned adm equals Boolean
of the decoded payload's adm claim; a spec-modelled issued bearer
decodes to the identity that logged in (sub is the user's email and adm
their admin flag); and the Login screen derives role admin exactly when
adm is true. -/
theorem c4_login_stores_and_derives_role (st : Storage) (email : String)
    (data : TokenOut) (u : BackendUser) (nowSec lifetimeSec : Int)
    (e p : String) (r : LoginResult) (he : e ≠ "") (hp : p ≠ "") :
    (login st email data).1.access_token = some data.access_token ∧
    (login st email data).1.current_email = some email ∧
    (login st email data).2.token = data.access_token ∧
    (login st email data).2.adm
      = jsBoolean ((decodeJwt data.access_token).bind JwtPayload.adm) ∧
    (decodeJwt (issueBearer u nowSec lifetimeSec)).bind JwtPayload.sub = some u.email ∧
    (login st u.email
      { access_token := issueBearer u nowSec lifetimeSec,
        token_type := "bearer", expires_in := lifetimeSec }).2.adm = u.is_admin ∧
    handleLoginSubmit e p (Except.ok r)
      = LoginAction.success e (if r.adm then "admin" else "user") ∧
    (handleLoginSubmit e p (Except.ok r) = LoginAction.success e "admin" ↔ r.adm = true) := by
  refine ⟨rfl, rfl, rfl, rfl, rfl, ?_, ?_, ?_⟩
  · simp [login, issueBearer, decodeJwt, jsBoolean]
  · simp [handleLoginSubmit, he, hp]
  · cases hadm : r.adm <;> simp [handleLoginSubmit, he, hp, hadm]

/-- C4 witness: a concrete login with an admin bearer token. -/
theorem c4_login_stores_and_derives_role_witness :
    (login { access_token := none, current_email := none } "a@x.com"
      { access_token := Token.payload { sub := some "a@x.com", exp := some 100, adm := some true },
        token_type := "bearer", expires_in := 60 }).1.access_token
      = some (Token.payload { sub := some "a@x.com", exp := some 100, adm := some true }) ∧
    (login { access_token := none, current_email := none } "a@x.com"
      { access_token := Token.payload { sub := some "a@x.com", exp := some 100, adm := some true },
        token_type := "bearer", expires_in := 60 }).1.current_email = some "a@x.com" ∧
    (login { access_token := none, current_email := none } "a@x.com"
      { access_token := Token.payload { sub := some "a@x.com", exp := some 100, adm := some true },
        token_type := "bearer", expires_in := 60 }).2.token
      = Token.payload { sub := some "a@x.com", exp := some 100, adm := some true } ∧
    (login { access_token := none, current_email := none } "a@x.com"
      { access_token := Token.payload { sub := some "a@x.com", exp := some 100, adm := some true },
        token_type := "bearer", expires_in := 60 }).2.adm
      = jsBoolean ((decodeJwt (Token.payload { sub := some "a@x.com", exp := some 100, adm := some true })).bind JwtPayload.adm) ∧
    (decodeJwt (issueBearer
      { email := "a@x.com", password := "password123",
        email_verified := true, is_active := true, is_admin := true } 40 60)).bind JwtPayload.sub
      = some "a@x.com" ∧
    (login { access_token := none, current_email := none } "a@x.com"
      { access_token := issueBearer
          { email := "a@x.com", password := "password123",
            email_verified := true, is_active := true, is_admin := true } 40 60,
        token_type := "bearer", expires_in := 60 }).2.adm = true ∧
    handleLoginSubmit "a@x.com" "password123"
      (Except.ok { token := Token.malformed, adm := true })
      = LoginAction.success "a@x.com" (if true then "admin" else "user") ∧
    (handleLoginSubmit "a@x.com" "password123"
      (Except.ok { token := Token.malformed, adm := true })
      = LoginAction.success "a@x.com" "admin" ↔ true = true) :=
  c4_login_stores_and_derives_role
    { access_token := none, current_email := none } "a@x.com"
    { access_token := Token.payload { sub := some "a@x.com", exp := some 100, adm := some true },
      token_type := "bearer", expires_in := 60 }
    { email := "a@x.com", password := "password123",
      email_verified := true, is_active := true, is_admin := true }
    40 60 "a@x.com" "password123" { token := Token.malformed, adm := true }
    (by decide) (by decide)

/-- C5: logout on the client simply discards the stored credential
(both localStorage keys are cleared, leaving the client logged out) and
does nothing else — there is no server-side revocation for bearer
tokens — while the spec-modelled server-side logout invalidates the
session record: no record with the logged-out session id survives. -/
theorem c5_logout_discards_client_session (st : Storage)
    (sessions : List SessionRec) (sid : String) (nowSec : Int) :
    logout st = { access_token := none, current_email := none } ∧
    isLoggedIn (logout st).access_token nowSec = false ∧
    ((serverLogout sessions sid).all fun s => s.session_id != sid) = true := by
  refine ⟨rfl, rfl, ?_⟩
  rw [List.all_eq_true]
  intro s hs
  exact (List.mem_filter.mp hs).2

/-- C6: adminUpdateUser puts a make_admin / verify_email / deactivate
query parameter in the request exactly for the flags supplied as
booleans in its changes argument, and AdminUsers.handleUpdateUser
supplies only the flags whose form value differs from the user's
current record, sending deactivate as the negation of the desired
is_active; unsupplied flags produce no parameter. -/
theorem c6_only_supplied_flags_sent (c : UpdateChanges) (form current : UserFlags) :
    (adminUpdateUserParams c).lookup "make_admin" = c.make_admin.map boolParam ∧
    (adminUpdateUserParams c).lookup "verify_email" = c.verify_email.map boolParam ∧
    (adminUpdateUserParams c).lookup "deactivate" = c.deactivate.map boolParam ∧
    handleUpdateUserChanges form current =
      { make_admin :=
          if form.is_admin = current.is_admin then none else some form.is_admin,
        verify_email :=
          if form.email_verified = current.email_verified then none else some form.email_verified,
        deactivate :=
          if form.is_active = current.is_active then none else some (!form.is_active) } := by
  obtain ⟨ma, ve, de⟩ := c
  refine ⟨?_, ?_, ?_, ?_⟩
  · cases ma <;> cases ve <;> cases de <;> rfl
  · cases ma <;> cases ve <;> cases de <;> rfl
  · cases ma <;> cases ve <;> cases de <;> rfl
  · simp [handleUpdateUserChanges, ne_eq, ite_not]

/-- C7: a registration form submission whose password is shorter than 8
characters, or whose email does not contain an at sign, is rejected: an
error message is shown and apiRegister is never called. -/
theorem c7_invalid_registration_rejected (email password : String)
    (h : password.length < 8 ∨ email.contains '@' = false) :
    (∃ msg, registerHandleSubmit email password = RegisterAction.showError msg) ∧
    ∀ e2 p2, registerHandleSubmit email password ≠ RegisterAction.sendRegister e2 p2 := by
  unfold registerHandleSubmit
  by_cases h1 : email = "" ∨ email.contains '@' = false
  · simp [h1]
  · rw [if_neg h1]
    have hlen : password.length < 8 := by
      rcases h with h | h
      · exact h
      · exact absurd (Or.inr h) h1
    simp [hlen]

/-- C7 witness: a five-character password with a well-formed email. -/
theorem c7_invalid_registration_rejected_witness :
    (∃ msg, registerHandleSubmit "a@b.c" "short" = RegisterAction.showError msg) ∧
    ∀ e2 p2, registerHandleSubmit "a@b.c" "short" ≠ RegisterAction.sendRegister e2 p2 :=
  c7_invalid_registration_rejected "a@b.c" "short" (Or.inl (by decide))

/-- C8 counterexample: a non-ok JSON response whose body carries the
present-but-empty detail field produces the statusText as message, not
the detail: JavaScript `||` treats the empty string as falsy. -/
theorem c8_counterexample :
    handleJsonResponse
      { ok := false, status := 400, statusText := "Bad Request",
        isJson := true, body := { detail := some "" } } =
      Except.error { status := 400, message := "Bad Request" } ∧
    ("Bad Request" : String) ≠ "" :=
  ⟨rfl, by decide⟩

/-- C8 (amended): for every non-ok response, handleJsonResponse throws
an error whose status equals the HTTP status code and whose message
equals the JSON body's detail field when present and non-empty,
otherwise the response statusText when non-empty, otherwise "Request
failed". -/
theorem c8_error_shape (res : HttpResponse) (h : res.ok = false) :
    handleJsonResponse res = Except.error
      { status := res.status,
        message :=
          match (if res.isJson then res.body.detail else none) with
          | some d => if d = "" then jsOrStr res.statusText "Request failed" else d
          | none => jsOrStr res.statusText "Request failed" } := by
  simp only [handleJsonResponse, h, Bool.not_false, if_true]
  cases hj : res.isJson <;> cases hd : res.body.detail <;>
    simp [jsOrOptStr, hd]

/-- C8 witness: a 404 with a non-empty detail field surfaces that detail
with the status code. -/
theorem c8_error_shape_witness :
    handleJsonResponse
      { ok := false, status := 404, statusText := "Not Found",
        isJson := true, body := { detail := some "No such user" } } =
      Except.error { status := 404, message := "No such user" } :=
  c8_error_shape
    { ok := false, status := 404, statusText := "Not Found",
      isJson := true, body := { detail := some "No such user" } } rfl

/-- C9: the verification-token issuer hands out the constant token
string a1 to every user (as the repository README records), so two
distinct users receive the same predictable constant — contradicting
the requirement of a cryptographically random, unguessable token. -/
theorem c9_constant_verification_token :
    issueToken 1 = "a1" ∧ issueToken 2 = "a1" ∧ issueToken 1 = issueToken 2 :=
  ⟨rfl, rfl, rfl⟩
